import Mathlib

/-
Verification of the schema-driven, size-budgeted XML generator
(scripts/xml_generator.py) against its specification.

The Python source is shallowly embedded below:
  * machine integers are `Int` (Python ints are unbounded, so no wrap-around),
    Python floor division `//` is `Int.fdiv`;
  * `random` is an injected random source `g : Nat → Nat` together with a draw
    counter: the n-th draw of the run reads `g n`; `random.randint lo hi` maps
    the draw into `[lo, hi]` by `lo + g n % (hi - lo + 1)` and fails exactly
    when `hi < lo` (Python raises `ValueError: empty range for randrange`);
  * fallible code returns `Except PyErr`;
  * the lxml element tree under construction is the inductive `Node`; the
    Python code mutates the parent in place (`etree.SubElement`), which is
    rendered by returning the created node to the caller, who attaches it;
  * the parsed XSD schema document is the inductive `SNode` (tag kind, @name,
    @type, children); namespace resolution is abstracted into the `isElem`
    flag (whether the tag is `xs:element`).
-/

namespace XmlGen

/-- Errors raised by the embedded Python code. -/
inductive PyErr where
  /-- `ValueError: empty range for randrange` from `random.randint(lo, hi)` with `hi < lo`. -/
  | emptyRange
  /-- `ValueError: too many values to unpack` from `prefix, name = name.split(':')`. -/
  | unpackError
  /-- `ValueError("Could not determine root element from schema")` raised in `__init__`. -/
  | schemaError
  /-- `TypeError` from operating on `None` (e.g. a missing mandatory attribute). -/
  | typeError
deriving DecidableEq

/-- A node of the parsed XSD schema document: whether its tag is `xs:element`,
its `@name` and `@type` attributes, and its child nodes, exactly the data the
generator consults. -/
inductive SNode where
  | mk (isElem : Bool) (nameAttr : Option String) (typeAttr : Option String)
      (children : List SNode)

def SNode.isElem : SNode → Bool
  | .mk b _ _ _ => b

def SNode.nameAttr : SNode → Option String
  | .mk _ n _ _ => n

def SNode.typeAttr : SNode → Option String
  | .mk _ _ t _ => t

def SNode.children : SNode → List SNode
  | .mk _ _ _ c => c

/-- A node of the output document tree: tag name, optional text content, and
ordered children (lxml `_Element`). -/
inductive Node where
  | mk (tag : String) (text : Option String) (children : List Node)

def Node.tag : Node → String
  | .mk t _ _ => t

def Node.text : Node → Option String
  | .mk _ t _ => t

def Node.children : Node → List Node
  | .mk _ _ c => c

mutual

/-- Nesting height of an output node (a childless node has height 1). -/
def Node.height : Node → Nat
  | .mk _ _ cs => 1 + heightList cs

/-- Maximum height over a list of nodes. -/
def heightList : List Node → Nat
  | [] => 0
  | n :: ns => max (Node.height n) (heightList ns)

end

/-- Python truthiness of an optional string attribute
(`if element_def.get('type'):` — `None` and the empty string are falsy). -/
def pyTruthy : Option String → Bool
  | none => false
  | some t => !t.isEmpty

/-- Python `str.split(':')` on a character list: splits at every colon,
keeping empty parts (so a string with k colons yields k+1 parts). -/
def splitColon : List Char → List (List Char)
  | [] => [[]]
  | c :: cs =>
    match splitColon cs with
    | [] => [[]]
    | p :: ps => if c = ':' then [] :: p :: ps else (c :: p) :: ps

/-- Lines 115–117 of `_create_element`:
`name = element_def.get('name'); if ':' in name: prefix, name = name.split(':')`.
The two-target unpacking succeeds only when the split yields exactly two
parts; with two or more colons Python raises
`ValueError: too many values to unpack`. -/
def stripNS (name : String) : Except PyErr String :=
  match splitColon name.data with
  | [_] => .ok name
  | [_, n] => .ok (String.mk n)
  | _ => .error .unpackError

/-- `random.randint(lo, hi)` on the injected source: uniform in `[lo, hi]`,
raising `ValueError` when the range is empty (`hi < lo`). Consumes one draw. -/
def randint (g : Nat → Nat) (c : Nat) (lo hi : Int) : Except PyErr (Int × Nat) :=
  if hi < lo then .error .emptyRange
  else .ok (lo + (g c : Int) % (hi - lo + 1), c + 1)

/-- Total counterpart of `randint` for the leaf generators, whose ranges are
constant and non-empty so `random.randint` can never raise there
(see `randint_eq_randBetween`). -/
def randBetween (g : Nat → Nat) (c : Nat) (lo hi : Int) : Int × Nat :=
  (lo + (g c : Int) % (hi - lo + 1), c + 1)

theorem randint_eq_randBetween (g : Nat → Nat) (c : Nat) (lo hi : Int)
    (h : lo ≤ hi) : randint g c lo hi = .ok (randBetween g c lo hi) := by
  simp [randint, randBetween, not_lt.mpr h]

/-- `string.ascii_lowercase`: the 26 characters from `a` to `z`. -/
def asciiLowercase : List Char := (List.range 26).map fun i => Char.ofNat (97 + i)

/-- `string.ascii_uppercase`: the 26 characters from `A` to `Z`. -/
def asciiUppercase : List Char := (List.range 26).map fun i => Char.ofNat (65 + i)

/-- `string.digits`: the 10 characters from `0` to `9`. -/
def digitChars : List Char := (List.range 10).map fun i => Char.ofNat (48 + i)

/-- `string.ascii_letters + string.digits + ' '`: the 63-character alphabet of
`_generate_string`, in Python's order (lowercase, uppercase, digits, space). -/
def charsList : List Char :=
  asciiLowercase ++ asciiUppercase ++ digitChars ++ [' ']

/-- `random.choice(chars)`: one uniformly drawn character of the alphabet.
Consumes one draw. -/
def randChoice (g : Nat → Nat) (c : Nat) : Char × Nat :=
  (charsList.get ⟨g c % charsList.length, Nat.mod_lt _ (by decide)⟩, c + 1)

/-- `_generate_string(length)`: `length` independent draws from the alphabet,
joined (`''.join(random.choice(chars) for _ in range(length))`). -/
def generateString (len : Nat) (g : Nat → Nat) (c : Nat) : String × Nat :=
  (String.mk ((List.range len).map fun i => (randChoice g (c + i)).1), c + len)

/-- `_generate_integer`: `str(random.randint(-1000000, 1000000))`. -/
def generateInteger (g : Nat → Nat) (c : Nat) : String × Nat :=
  let (v, c1) := randBetween g c (-1000000) 1000000
  (toString v, c1)

/-- Zero padding to width `w`, as Python's `f"{v:0wd}"` for the non-negative
values produced here (Python places the sign before the zeros for negative
values, a case the callers never hit). -/
def zfill (w : Nat) (v : Int) : String :=
  let s := toString v
  String.mk (List.replicate (w - s.length) '0') ++ s

/-- `_generate_decimal`: `f"{random.uniform(-1000000, 1000000):.2f}"`.
The IEEE-754 `random.uniform` draw is not shallowly embeddable; it is modelled
as an integer number of hundredths drawn from the injected source and printed
with exactly two fractional digits. No claim depends on this function. -/
def generateDecimal (g : Nat → Nat) (c : Nat) : String × Nat :=
  let (v, c1) := randBetween g c (-100000000) 100000000
  ((if v < 0 then "-" else "") ++ toString (v.natAbs / 100) ++ "." ++
    zfill 2 ((v.natAbs : Int) % 100), c1)

/-- `_generate_date`: `random.randint` draws of year in `[1900, 2100]`, month
in `[1, 12]`, day in `[1, 28]`, formatted `f"{year:04d}-{month:02d}-{day:02d}"`. -/
def generateDate (g : Nat → Nat) (c : Nat) : String × Nat :=
  let (y, c1) := randBetween g c 1900 2100
  let (m, c2) := randBetween g c1 1 12
  let (d, c3) := randBetween g c2 1 28
  (zfill 4 y ++ "-" ++ zfill 2 m ++ "-" ++ zfill 2 d, c3)

/-- `_generate_datetime`: a date, then `f"{date}T{hour:02d}:{minute:02d}:{second:02d}Z"`. -/
def generateDatetime (g : Nat → Nat) (c : Nat) : String × Nat :=
  let (date, c1) := generateDate g c
  let (h, c2) := randBetween g c1 0 23
  let (m, c3) := randBetween g c2 0 59
  let (s, c4) := randBetween g c3 0 59
  (date ++ "T" ++ zfill 2 h ++ ":" ++ zfill 2 m ++ ":" ++ zfill 2 s ++ "Z", c4)

/-- `_generate_boolean`: `random.choice(['true', 'false'])`. -/
def generateBoolean (g : Nat → Nat) (c : Nat) : String × Nat :=
  (if g c % 2 = 0 then "true" else "false", c + 1)

/-- `_generate_uri`: `http://<10 random lowercase chars>.com/<15 random lowercase chars>`. -/
def generateUri (g : Nat → Nat) (c : Nat) : String × Nat :=
  let (domain, c1) := generateString 10 g c
  let (path, c2) := generateString 15 g c1
  ("http://" ++ domain.map Char.toLower ++ ".com/" ++ path.map Char.toLower, c2)

/-- The dispatch table `_create_type_generators` followed by
`self.type_generators.get(base_type, self._generate_string)` and the
zero-argument call `generator()` (so `_generate_string` runs with its default
length 20). Unregistered tags fall back to the string generator. -/
def typeGenerator (base : String) (g : Nat → Nat) (c : Nat) : String × Nat :=
  if base = "string" then generateString 20 g c
  else if base = "integer" then generateInteger g c
  else if base = "decimal" then generateDecimal g c
  else if base = "date" then generateDate g c
  else if base = "dateTime" then generateDatetime g c
  else if base = "boolean" then generateBoolean g c
  else if base = "anyURI" then generateUri g c
  else generateString 20 g c

/-- `_generate_element_content`: `type_name = element.get('type', 'string')`,
`base_type = type_name.split(':')[-1]`, then dispatch. -/
def generateElementContent (edef : SNode) (g : Nat → Nat) (c : Nat) : String × Nat :=
  let typeName := (edef.typeAttr).getD "string"
  let base := String.mk ((splitColon typeName.data).getLastD [])
  typeGenerator base g c

/-- `AVERAGE_ELEMENT_OVERHEAD`. -/
def averageElementOverhead : Int := 50

/-- `_calculate_target_elements`: `math.ceil(target_size_bytes / 50)`
(advisory only — computed and then ignored by `generate`). -/
def calculateTargetElements (targetSize : Int) : Int :=
  -(Int.fdiv (-targetSize) averageElementOverhead)

/-- The `for _ in range(children_count):` loop of `_create_element`, lines
133–140. `f` is the recursive call at `depth + 1` (fuel already spent);
`remaining` and `cc` (`children_count`) stay fixed for the whole loop while
`sizeUsed` accumulates, so each child is handed
`(remaining_size - size_used) // children_count`. Nodes the children attach to
the element are accumulated in `acc` (in reverse, restored on exit). -/
def childLoopF (f : Int → Nat → Except PyErr (Option Node × Int × Nat))
    (remaining cc : Int) :
    Nat → Int → List Node → Nat → Except PyErr (List Node × Int × Nat)
  | 0, sizeUsed, acc, c => .ok (acc.reverse, sizeUsed, c)
  | k + 1, sizeUsed, acc, c =>
    match f (Int.fdiv (remaining - sizeUsed) cc) c with
    | .error e => .error e
    | .ok (child?, childSize, c1) =>
      childLoopF f remaining cc k (sizeUsed + childSize)
        (match child? with
         | some n => n :: acc
         | none => acc) c1

/-- `_create_element(element_def, parent, remaining_size, depth)`.

Returns the node attached to the parent (if any), the `size_used` accounting
value, and the advanced draw counter. The extra `fuel` argument makes the
recursion structural; each recursive call at `depth + 1` spends one unit, and
the guard `remaining_size <= 0 or depth > 100` cuts every path at depth 101,
so any `fuel ≥ 101 - depth` computes the Python function exactly (the fuel-out
branch coincides with the guard result and is never otherwise reached; see
`createElement_fuel_invariant`). -/
def createElement : Nat → SNode → Int → Nat → (Nat → Nat) → Nat →
    Except PyErr (Option Node × Int × Nat)
  | 0, _, _, _, _, c => .ok (none, 0, c)
  | fuel + 1, edef, remaining, depth, g, c =>
    if remaining ≤ 0 ∨ depth > 100 then .ok (none, 0, c)
    else
      match edef.nameAttr with
      | none => .error .typeError
      | some rawName =>
        match stripNS rawName with
        | .error e => .error e
        | .ok name =>
          if pyTruthy edef.typeAttr then
            let p := generateElementContent edef g c
            .ok (some (.mk name (some p.1) []),
                 (p.1.length : Int) + (name.length : Int) * 2 + 5, p.2)
          else
            let size0 : Int := (name.length : Int) * 2 + 5
            match randint g c 1 (min 5 (Int.fdiv remaining averageElementOverhead)) with
            | .error e => .error e
            | .ok (cc, c1) =>
              match childLoopF (fun b c2 => createElement fuel edef b (depth + 1) g c2)
                  remaining cc cc.toNat size0 [] c1 with
              | .error e => .error e
              | .ok (children, sizeUsed, c2) =>
                .ok (some (.mk name none children), sizeUsed, c2)

/-- One recursive hand-off of the walker to a child, as recorded by the
instrumented walker: the current numerator `remaining_size - size_used`, the
fixed divisor `children_count`, the number of loop iterations still to run
(current one included), and the budget actually passed. -/
structure ChildCall where
  num : Int
  total : Int
  left : Nat
  budget : Int
deriving DecidableEq

/-- Instrumented copy of `childLoopF` that also records, in order, one
`ChildCall` per hand-off (kept even when a child raises, since the record is
made before the call). -/
def childLoopFT (f : Int → Nat → Except PyErr (Option Node × Int × Nat) × List ChildCall)
    (remaining cc : Int) :
    Nat → Int → List Node → Nat →
      Except PyErr (List Node × Int × Nat) × List ChildCall
  | 0, sizeUsed, acc, c => (.ok (acc.reverse, sizeUsed, c), [])
  | k + 1, sizeUsed, acc, c =>
    let entry : ChildCall :=
      ⟨remaining - sizeUsed, cc, k + 1, Int.fdiv (remaining - sizeUsed) cc⟩
    match f (Int.fdiv (remaining - sizeUsed) cc) c with
    | (.error e, tr) => (.error e, entry :: tr)
    | (.ok (child?, childSize, c1), tr) =>
      let rest := childLoopFT f remaining cc k (sizeUsed + childSize)
        (match child? with
         | some n => n :: acc
         | none => acc) c1
      (rest.1, entry :: (tr ++ rest.2))

/-- Instrumented copy of `createElement` returning, besides the result, the
list of every budget hand-off performed anywhere in the walk
(`createElementT_fst` proves the result component identical to `createElement`). -/
def createElementT : Nat → SNode → Int → Nat → (Nat → Nat) → Nat →
    Except PyErr (Option Node × Int × Nat) × List ChildCall
  | 0, _, _, _, _, c => (.ok (none, 0, c), [])
  | fuel + 1, edef, remaining, depth, g, c =>
    if remaining ≤ 0 ∨ depth > 100 then (.ok (none, 0, c), [])
    else
      match edef.nameAttr with
      | none => (.error .typeError, [])
      | some rawName =>
        match stripNS rawName with
        | .error e => (.error e, [])
        | .ok name =>
          if pyTruthy edef.typeAttr then
            let p := generateElementContent edef g c
            (.ok (some (.mk name (some p.1) []),
                  (p.1.length : Int) + (name.length : Int) * 2 + 5, p.2), [])
          else
            let size0 : Int := (name.length : Int) * 2 + 5
            match randint g c 1 (min 5 (Int.fdiv remaining averageElementOverhead)) with
            | .error e => (.error e, [])
            | .ok (cc, c1) =>
              match childLoopFT (fun b c2 => createElementT fuel edef b (depth + 1) g c2)
                  remaining cc cc.toNat size0 [] c1 with
              | (.error e, tr) => (.error e, tr)
              | (.ok (children, sizeUsed, c2), tr) =>
                (.ok (some (.mk name none children), sizeUsed, c2), tr)

mutual

/-- The node list produced by the XPath query `//xs:element[@name]`: every
node in document (preorder) order whose tag is `xs:element` and that carries a
`@name` attribute. -/
def SNode.namedElems : SNode → List SNode
  | .mk isE n? t? cs =>
    (if isE && n?.isSome then [SNode.mk isE n? t? cs] else []) ++ namedElemsList cs

/-- `SNode.namedElems` over a list of siblings, in order. -/
def namedElemsList : List SNode → List SNode
  | [] => []
  | c :: cs => c.namedElems ++ namedElemsList cs

end

/-- `_find_root_element`: the first match of `//xs:element[@name]`, or `None`. -/
def findRootElement (doc : SNode) : Option SNode :=
  doc.namedElems.head?

/-- `XMLGenerator.__init__` (the part with algorithmic content): find the root
element definition and run `if not self.root_element: raise ValueError(...)`.
`self.root_element` is an lxml element, whose truth value is its number of
children (lxml's documented element truthiness), so the error is raised both
when no named `xs:element` exists and when the first one found has no child
nodes. -/
def xmlGeneratorInit (doc : SNode) : Except PyErr SNode :=
  match findRootElement doc with
  | none => .error .schemaError
  | some e => if e.children.isEmpty then .error .schemaError else .ok e

/-- `generate(target_size_bytes, output_path)`, up to serialization: create
the root node from the raw `@name` (lxml would reject a name that still
carries a colon, a case that cannot reach here because XSD `@name` is an
NCName — not modelled), compute the advisory element-count estimate (unused),
then run `_create_element(self.root_element, root, target_size_bytes)` at
depth 0 and attach whatever node it creates under the root. File output and
the post-hoc validation (which only prints warnings) are I/O and are not part
of the returned value. -/
def generate (rootEdef : SNode) (targetSize : Int) (g : Nat → Nat) :
    Except PyErr Node :=
  match rootEdef.nameAttr with
  | none => .error .typeError
  | some rawName =>
    let _targetElements := calculateTargetElements targetSize
    match createElement 101 rootEdef targetSize 0 g 0 with
    | .error e => .error e
    | .ok (child?, _, _) => .ok (Node.mk rawName none child?.toList)

/-- Constructing the generator from a schema document and then generating:
`XMLGenerator(schema).generate(size, out)`. -/
def generateFromSchema (doc : SNode) (targetSize : Int) (g : Nat → Nat) :
    Except PyErr Node :=
  match xmlGeneratorInit doc with
  | .error e => .error e
  | .ok edef => generate edef targetSize g

/-! Concrete fixtures used by witnesses and counterexamples. -/

/-- The random source that always draws 0 (so every `randint lo hi` yields `lo`). -/
def rngZero : Nat → Nat := fun _ => 0

/-- A random source whose first draw is 1 and all later draws are 0. -/
def rngOneFirst : Nat → Nat := fun i => if i = 0 then 1 else 0

/-- A 23-character element name, making `len(name)*2 + 5 = 51`. -/
def wideName : String := "abcdefghijklmnopqrstuvw"

/-- A complex (untyped) element definition with the 23-character name. -/
def edefWide : SNode := .mk true (some wideName) none []

/-- A complex top-level element definition named `Root` (its `xs:complexType`
child makes it truthy for lxml). -/
def edefRoot : SNode := .mk true (some "Root") none [.mk false none none []]

/-- A schema document whose only top-level definition is the complex `Root`. -/
def docRoot : SNode := .mk false none none [edefRoot]

/-- A top-level element definition of primitive type `xs:string` named `r`.
As an XML node it is childless. -/
def edefStringTyped : SNode := .mk true (some "r") (some "xs:string") []

/-- A schema document declaring exactly the childless `xs:string` element `r`. -/
def docStringTyped : SNode := .mk false none none [edefStringTyped]

/-- An element definition whose `@type` local name (`gYear`) is not one of the
seven registered type generators. -/
def edefGYear : SNode := .mk true (some "x") (some "xs:gYear") []

/-! Helper lemmas about the walker. -/

/-- Pointwise-equal recursive calls give equal child loops. -/
theorem childLoopF_congr (f₁ f₂ : Int → Nat → Except PyErr (Option Node × Int × Nat))
    (hf : ∀ b c, f₁ b c = f₂ b c) (remaining cc : Int) :
    ∀ (k : Nat) (sizeUsed : Int) (acc : List Node) (c : Nat),
      childLoopF f₁ remaining cc k sizeUsed acc c =
        childLoopF f₂ remaining cc k sizeUsed acc c := by
  intro k
  induction k with
  | zero => intro sizeUsed acc c; rfl
  | succ k ih =>
    intro sizeUsed acc c
    simp only [childLoopF, hf]
    cases f₂ (Int.fdiv (remaining - sizeUsed) cc) c with
    | error e => rfl
    | ok v => exact ih _ _ _

/-- Spending one more unit of fuel changes nothing once the fuel already covers
the remaining depth ceiling. -/
theorem createElement_succ_eq (fuel : Nat) :
    ∀ (edef : SNode) (remaining : Int) (depth : Nat) (g : Nat → Nat) (c : Nat),
      101 ≤ fuel + depth →
      createElement (fuel + 1) edef remaining depth g c =
        createElement fuel edef remaining depth g c := by
  induction fuel with
  | zero =>
    intro edef remaining depth g c h
    have hd : depth > 100 := by omega
    simp only [createElement]
    rw [if_pos (Or.inr hd)]
  | succ fuel ih =>
    intro edef remaining depth g c h
    conv_lhs => rw [createElement]
    conv_rhs => rw [createElement]
    by_cases hg : remaining ≤ 0 ∨ depth > 100
    · rw [if_pos hg, if_pos hg]
    · rw [if_neg hg, if_neg hg]
      cases hn : edef.nameAttr with
      | none => rfl
      | some rawName =>
        dsimp only
        cases hs : stripNS rawName with
        | error e => rfl
        | ok name =>
          dsimp only
          by_cases hp : pyTruthy edef.typeAttr
          · rw [if_pos hp, if_pos hp]
          · rw [if_neg hp, if_neg hp]
            cases hr : randint g c 1 (min 5 (Int.fdiv remaining averageElementOverhead)) with
            | error e => rfl
            | ok v =>
              obtain ⟨cc, c1⟩ := v
              dsimp only
              rw [childLoopF_congr
                (fun b c2 => createElement (fuel + 1) edef b (depth + 1) g c2)
                (fun b c2 => createElement fuel edef b (depth + 1) g c2)
                (fun b c2 => ih edef b (depth + 1) g c2 (by omega)) remaining cc]

/-- Any fuel at least `101 - depth` computes the same result as exactly
`101 - depth`. -/
theorem createElement_fuel_ge (fuel : Nat) (edef : SNode) (remaining : Int)
    (depth : Nat) (g : Nat → Nat) (c : Nat) (h : 101 - depth ≤ fuel) :
    createElement fuel edef remaining depth g c =
      createElement (101 - depth) edef remaining depth g c := by
  obtain ⟨k, rfl⟩ : ∃ k, fuel = (101 - depth) + k := ⟨fuel - (101 - depth), by omega⟩
  clear h
  induction k with
  | zero => rfl
  | succ k ih =>
    have hstep : (101 - depth) + (k + 1) = ((101 - depth) + k) + 1 := by omega
    rw [hstep, createElement_succ_eq _ _ _ _ _ _ (by omega), ih]

/-- The walker's recursion is exhausted by the depth guard, never by the fuel:
any two sufficient fuels compute the same result. -/
theorem createElement_fuel_invariant (f₁ f₂ : Nat) (edef : SNode) (remaining : Int)
    (depth : Nat) (g : Nat → Nat) (c : Nat)
    (h₁ : 101 - depth ≤ f₁) (h₂ : 101 - depth ≤ f₂) :
    createElement f₁ edef remaining depth g c =
      createElement f₂ edef remaining depth g c := by
  rw [createElement_fuel_ge f₁ _ _ _ _ _ h₁, createElement_fuel_ge f₂ _ _ _ _ _ h₂]

/-- Lines 111–112: a non-positive budget or a depth beyond 100 returns 0
immediately and attaches nothing. -/
theorem createElement_guard (fuel : Nat) (edef : SNode) (remaining : Int)
    (depth : Nat) (g : Nat → Nat) (c : Nat) (h : remaining ≤ 0 ∨ 100 < depth) :
    createElement fuel edef remaining depth g c = .ok (none, 0, c) := by
  cases fuel with
  | zero => rfl
  | succ fuel =>
    simp only [createElement]
    rw [if_pos h]

/-- A list of nodes of bounded height has bounded maximum height. -/
theorem heightList_le_of {ns : List Node} {H : Nat}
    (h : ∀ n ∈ ns, Node.height n ≤ H) : heightList ns ≤ H := by
  induction ns with
  | nil => simp [heightList]
  | cons n ns ih =>
    simp only [heightList, Nat.max_le]
    exact ⟨h n (by simp), ih fun m hm => h m (by simp [hm])⟩

/-- If every node attached by a recursive call has height at most `H`, so does
every node the child loop returns (given the same bound on the accumulator). -/
theorem childLoopF_height (f : Int → Nat → Except PyErr (Option Node × Int × Nat))
    (H : Nat)
    (hf : ∀ b c child s c', f b c = .ok (some child, s, c') → Node.height child ≤ H)
    (remaining cc : Int) :
    ∀ (k : Nat) (sizeUsed : Int) (acc : List Node) (c : Nat)
      (ns : List Node) (su : Int) (c' : Nat),
      (∀ n ∈ acc, Node.height n ≤ H) →
      childLoopF f remaining cc k sizeUsed acc c = .ok (ns, su, c') →
      ∀ n ∈ ns, Node.height n ≤ H := by
  intro k
  induction k with
  | zero =>
    intro sizeUsed acc c ns su c' hacc heq n hn
    simp only [childLoopF, Except.ok.injEq, Prod.mk.injEq] at heq
    obtain ⟨h1, -, -⟩ := heq
    subst h1
    exact hacc n (List.mem_reverse.mp hn)
  | succ k ih =>
    intro sizeUsed acc c ns su c' hacc heq n hn
    simp only [childLoopF] at heq
    cases hcall : f (Int.fdiv (remaining - sizeUsed) cc) c with
    | error e => rw [hcall] at heq; exact absurd heq (by simp)
    | ok v =>
      obtain ⟨child?, childSize, c1⟩ := v
      rw [hcall] at heq
      dsimp only at heq
      cases child? with
      | none => exact ih _ _ _ _ _ _ hacc heq n hn
      | some child =>
        refine ih _ _ _ _ _ _ ?_ heq n hn
        intro m hm
        rcases List.mem_cons.mp hm with hm | hm
        · subst hm; exact hf _ _ _ _ _ hcall
        · exact hacc m hm

/-- Every node the walker creates at depth `d` heads a subtree of nesting
height at most `101 - d`; in particular no node is ever created at recursion
depth greater than 100. -/
theorem createElement_height (fuel : Nat) :
    ∀ (edef : SNode) (remaining : Int) (depth : Nat) (g : Nat → Nat) (c : Nat)
      (node : Node) (s : Int) (c' : Nat),
      createElement fuel edef remaining depth g c = .ok (some node, s, c') →
      Node.height node ≤ 101 - depth := by
  induction fuel with
  | zero =>
    intro edef remaining depth g c node s c' h
    simp [createElement] at h
  | succ fuel ih =>
    intro edef remaining depth g c node s c' h
    rw [createElement] at h
    by_cases hg : remaining ≤ 0 ∨ depth > 100
    · rw [if_pos hg] at h; simp at h
    · rw [if_neg hg] at h
      push_neg at hg
      obtain ⟨-, hd⟩ := hg
      cases hn : edef.nameAttr with
      | none => rw [hn] at h; exact absurd h (by simp)
      | some rawName =>
        rw [hn] at h
        dsimp only at h
        cases hs : stripNS rawName with
        | error e => rw [hs] at h; exact absurd h (by simp)
        | ok name =>
          rw [hs] at h
          dsimp only at h
          by_cases hp : pyTruthy edef.typeAttr
          · rw [if_pos hp] at h
            simp only [Except.ok.injEq, Prod.mk.injEq, Option.some.injEq] at h
            obtain ⟨h1, -, -⟩ := h
            subst h1
            simp only [Node.height, heightList]
            omega
          · rw [if_neg hp] at h
            cases hr : randint g c 1 (min 5 (Int.fdiv remaining averageElementOverhead)) with
            | error e => rw [hr] at h; exact absurd h (by simp)
            | ok v =>
              obtain ⟨cc, c1⟩ := v
              rw [hr] at h
              dsimp only at h
              cases hcl : childLoopF (fun b c2 => createElement fuel edef b (depth + 1) g c2)
                  remaining cc cc.toNat ((name.length : Int) * 2 + 5) [] c1 with
              | error e => rw [hcl] at h; exact absurd h (by simp)
              | ok w =>
                obtain ⟨children, sizeUsed, c2⟩ := w
                rw [hcl] at h
                simp only [Except.ok.injEq, Prod.mk.injEq, Option.some.injEq] at h
                obtain ⟨h1, -, -⟩ := h
                subst h1
                have hkids : ∀ n ∈ children, Node.height n ≤ 100 - depth := by
                  refine childLoopF_height _ (100 - depth) ?_ remaining cc cc.toNat _ [] c1
                    children sizeUsed c2 (by simp) hcl
                  intro b cb child sb cb' hcall
                  have := ih edef b (depth + 1) g cb child sb cb' hcall
                  omega
                have := heightList_le_of hkids
                simp only [Node.height]
                omega

/-- The instrumented walker computes exactly what `createElement` computes
(its first component forgets the recorded hand-offs). -/
theorem childLoopFT_fst
    (fT : Int → Nat → Except PyErr (Option Node × Int × Nat) × List ChildCall)
    (f : Int → Nat → Except PyErr (Option Node × Int × Nat))
    (hf : ∀ b c, (fT b c).1 = f b c) (remaining cc : Int) :
    ∀ (k : Nat) (sizeUsed : Int) (acc : List Node) (c : Nat),
      (childLoopFT fT remaining cc k sizeUsed acc c).1 =
        childLoopF f remaining cc k sizeUsed acc c := by
  intro k
  induction k with
  | zero => intro sizeUsed acc c; rfl
  | succ k ih =>
    intro sizeUsed acc c
    simp only [childLoopFT, childLoopF]
    rw [← hf]
    cases hft : fT (Int.fdiv (remaining - sizeUsed) cc) c with
    | mk res tr =>
      cases res with
      | error e => rfl
      | ok v =>
        obtain ⟨child?, childSize, c1⟩ := v
        dsimp only
        exact ih _ _ _

/-- Erasure: forgetting the trace recovers `createElement`. -/
theorem createElementT_fst (fuel : Nat) :
    ∀ (edef : SNode) (remaining : Int) (depth : Nat) (g : Nat → Nat) (c : Nat),
      (createElementT fuel edef remaining depth g c).1 =
        createElement fuel edef remaining depth g c := by
  induction fuel with
  | zero => intro edef remaining depth g c; rfl
  | succ fuel ih =>
    intro edef remaining depth g c
    conv_lhs => rw [createElementT]
    conv_rhs => rw [createElement]
    by_cases hg : remaining ≤ 0 ∨ depth > 100
    · rw [if_pos hg, if_pos hg]
    · rw [if_neg hg, if_neg hg]
      cases hn : edef.nameAttr with
      | none => rfl
      | some rawName =>
        dsimp only
        cases hs : stripNS rawName with
        | error e => rfl
        | ok name =>
          dsimp only
          by_cases hp : pyTruthy edef.typeAttr
          · rw [if_pos hp, if_pos hp]
          · rw [if_neg hp, if_neg hp]
            cases hr : randint g c 1 (min 5 (Int.fdiv remaining averageElementOverhead)) with
            | error e => rfl
            | ok v =>
              obtain ⟨cc, c1⟩ := v
              dsimp only
              have hcl := childLoopFT_fst
                (fun b c2 => createElementT fuel edef b (depth + 1) g c2)
                (fun b c2 => createElement fuel edef b (depth + 1) g c2)
                (fun b c2 => ih edef b (depth + 1) g c2) remaining cc
                cc.toNat ((name.length : Int) * 2 + 5) [] c1
              cases hclv : childLoopFT (fun b c2 => createElementT fuel edef b (depth + 1) g c2)
                  remaining cc cc.toNat ((name.length : Int) * 2 + 5) [] c1 with
              | mk res tr =>
                rw [hclv] at hcl
                dsimp only at hcl
                rw [← hcl]
                cases res with
                | error e => rfl
                | ok w => obtain ⟨children, sizeUsed, c2⟩ := w; rfl

/-- Every hand-off recorded by the instrumented child loop divides its
numerator by the fixed total `children_count` (provided recursive calls only
record such hand-offs as well). -/
theorem childLoopFT_budget
    (fT : Int → Nat → Except PyErr (Option Node × Int × Nat) × List ChildCall)
    (hrec : ∀ b c, ∀ e ∈ (fT b c).2, e.budget = Int.fdiv e.num e.total)
    (remaining cc : Int) :
    ∀ (k : Nat) (sizeUsed : Int) (acc : List Node) (c : Nat),
      ∀ e ∈ (childLoopFT fT remaining cc k sizeUsed acc c).2,
        e.budget = Int.fdiv e.num e.total := by
  intro k
  induction k with
  | zero => intro sizeUsed acc c e he; simp [childLoopFT] at he
  | succ k ih =>
    intro sizeUsed acc c e he
    simp only [childLoopFT] at he
    cases hft : fT (Int.fdiv (remaining - sizeUsed) cc) c with
    | mk res tr =>
      rw [hft] at he
      cases res with
      | error e2 =>
        dsimp only at he
        rcases List.mem_cons.mp he with he | he
        · subst he; rfl
        · exact hrec _ _ e (by rw [hft]; exact he)
      | ok v =>
        obtain ⟨child?, childSize, c1⟩ := v
        dsimp only at he
        rcases List.mem_cons.mp he with he | he
        · subst he; rfl
        · rcases List.mem_append.mp he with he | he
          · exact hrec _ _ e (by rw [hft]; exact he)
          · exact ih _ _ _ e he

/-- Every hand-off the instrumented walker records anywhere in the walk
divides the current numerator `remaining_size - size_used` by the loop's fixed
total `children_count`. -/
theorem createElementT_budget (fuel : Nat) :
    ∀ (edef : SNode) (remaining : Int) (depth : Nat) (g : Nat → Nat) (c : Nat),
      ∀ e ∈ (createElementT fuel edef remaining depth g c).2,
        e.budget = Int.fdiv e.num e.total := by
  induction fuel with
  | zero => intro edef remaining depth g c e he; simp [createElementT] at he
  | succ fuel ih =>
    intro edef remaining depth g c e he
    rw [createElementT] at he
    by_cases hg : remaining ≤ 0 ∨ depth > 100
    · rw [if_pos hg] at he; simp at he
    · rw [if_neg hg] at he
      cases hn : edef.nameAttr with
      | none => rw [hn] at he; simp at he
      | some rawName =>
        rw [hn] at he
        dsimp only at he
        cases hs : stripNS rawName with
        | error e2 => rw [hs] at he; simp at he
        | ok name =>
          rw [hs] at he
          dsimp only at he
          by_cases hp : pyTruthy edef.typeAttr
          · rw [if_pos hp] at he; simp at he
          · rw [if_neg hp] at he
            cases hr : randint g c 1 (min 5 (Int.fdiv remaining averageElementOverhead)) with
            | error e2 => rw [hr] at he; simp at he
            | ok v =>
              obtain ⟨cc, c1⟩ := v
              rw [hr] at he
              dsimp only at he
              have hbud := childLoopFT_budget
                (fun b c2 => createElementT fuel edef b (depth + 1) g c2)
                (fun b c2 => ih edef b (depth + 1) g c2) remaining cc
                cc.toNat ((name.length : Int) * 2 + 5) [] c1
              cases hclv : childLoopFT (fun b c2 => createElementT fuel edef b (depth + 1) g c2)
                  remaining cc cc.toNat ((name.length : Int) * 2 + 5) [] c1 with
              | mk res tr =>
                rw [hclv] at he hbud
                cases res with
                | error e2 => exact hbud e he
                | ok w =>
                  obtain ⟨children, sizeUsed, c2⟩ := w
                  exact hbud e he

/-! Claim theorems. -/

/-- C1: the claim states that `generate(S, schema)` terminates and returns a
document raising no exception for every `S ≥ 0` and well-formed schema with a
top-level element, the walk over a complex element never erroring for positive
budgets. The code violates this: for a complex element with
`0 < remaining_size < 50`, line 128's
`random.randint(1, min(5, remaining_size // 50))` is `randint(1, 0)`, which
raises `ValueError: empty range for randrange`. Here, with the complex
top-level element `Root` and target size 25, generation raises for every state
of the random source. -/
theorem c1_generate_raises_on_small_complex_budget (g : Nat → Nat) :
    generateFromSchema docRoot 25 g = .error .emptyRange := rfl

/-- C2 counterexample: the claim says the i-th of n children is handed
`(remainingSize - bytesUsedSoFar) / (n - i)`, dividing by the children not yet
processed. Concretely (23-char element name, budget 151, first draw 1 then 0),
the walker hands its second child (one child left, numerator 49) the budget
`49 // 2 = 24`, not `49 // 1 = 49`: some recorded hand-off violates
`budget = num // left`. -/
theorem c2_counterexample :
    ∃ e ∈ (createElementT 101 edefWide 151 0 rngOneFirst 0).2,
      e.budget ≠ Int.fdiv e.num (e.left : Int) := by decide

/-- C2 (amended): the budget handed to each successive child equals the
currently remaining size (`remaining_size - size_used`, recomputed after each
child) divided by the FIXED total `children_count`, not by the count of
children not yet processed. Stated over the instrumented walker: its result
component is exactly `createElement`, and every recorded hand-off divides its
numerator by the fixed total. -/
theorem c2_amended_budget_division (fuel : Nat) (edef : SNode) (remaining : Int)
    (depth : Nat) (g : Nat → Nat) (c : Nat) :
    (createElementT fuel edef remaining depth g c).1 =
      createElement fuel edef remaining depth g c ∧
    ∀ e ∈ (createElementT fuel edef remaining depth g c).2,
      e.budget = Int.fdiv e.num e.total :=
  ⟨createElementT_fst fuel edef remaining depth g c,
   createElementT_budget fuel edef remaining depth g c⟩

theorem c2_amended_budget_division_witness :
    (createElementT 101 edefWide 151 0 rngOneFirst 0).1 =
      createElement 101 edefWide 151 0 rngOneFirst 0 ∧
    (⟨(49 : Int), 2, 1, 24⟩ : ChildCall).budget = Int.fdiv (49 : Int) (2 : Int) :=
  ⟨(c2_amended_budget_division 101 edefWide 151 0 rngOneFirst 0).1,
   (c2_amended_budget_division 101 edefWide 151 0 rngOneFirst 0).2
     ⟨(49 : Int), 2, 1, 24⟩ (by decide)⟩

/-- C3: the walker returns 0 and attaches nothing whenever the remaining size
is non-positive or the depth exceeds 100; the walk terminates for every
element definition and budget (rendered as fuel-independence: the recursion is
exhausted by the depth guard, any fuel covering `101 - depth` gives the same
result, so the fuel sentinel is never consulted); and no node is ever created
at recursion depth greater than 100 (every node created at depth `d` heads a
subtree of height at most `101 - d`). -/
theorem c3_guard_termination_depth (f₁ f₂ : Nat) (edef : SNode) (remaining : Int)
    (depth : Nat) (g : Nat → Nat) (c : Nat) :
    (101 - depth ≤ f₁ → 101 - depth ≤ f₂ →
      createElement f₁ edef remaining depth g c =
        createElement f₂ edef remaining depth g c) ∧
    ((remaining ≤ 0 ∨ 100 < depth) →
      createElement f₁ edef remaining depth g c = .ok (none, 0, c)) ∧
    (∀ node s c',
      createElement f₁ edef remaining depth g c = .ok (some node, s, c') →
      Node.height node ≤ 101 - depth) :=
  ⟨fun h₁ h₂ => createElement_fuel_invariant f₁ f₂ edef remaining depth g c h₁ h₂,
   fun h => createElement_guard f₁ edef remaining depth g c h,
   fun node s c' h => createElement_height f₁ edef remaining depth g c node s c' h⟩

theorem c3_guard_termination_depth_witness :
    createElement 101 edefStringTyped 10 0 rngZero 0 =
      createElement 102 edefStringTyped 10 0 rngZero 0 ∧
    createElement 101 edefStringTyped (-3) 0 rngZero 7 = .ok (none, 0, 7) ∧
    Node.height (Node.mk "r" (some "aaaaaaaaaaaaaaaaaaaa") []) ≤ 101 := by
  refine ⟨(c3_guard_termination_depth 101 102 edefStringTyped 10 0 rngZero 0).1
      (by norm_num) (by norm_num),
    (c3_guard_termination_depth 101 102 edefStringTyped (-3) 0 rngZero 7).2.1
      (Or.inl (by norm_num)), ?_⟩
  have h := (c3_guard_termination_depth 101 102 edefStringTyped 10 0 rngZero 0).2.2
    (Node.mk "r" (some "aaaaaaaaaaaaaaaaaaaa") []) 27 20 rfl
  simpa using h

/-- C4 counterexample: the claim says every budget passed to a recursive child
call is a non-negative integer. Concretely (23-char name, so
`size_used = 51 > 50 = remaining_size`), the walker hands its only child the
budget `(50 - 51) // 1 = -1`: a recorded hand-off has negative budget. -/
theorem c4_counterexample_negative_budget :
    ∃ e ∈ (createElementT 101 edefWide 50 0 rngZero 0).2, e.budget < 0 := by decide

/-- C4 (amended): a computed child budget is an integer that may be negative
(the numerator `remaining_size - size_used` can go below zero); whenever the
budget handed to a child call is non-positive, that call returns 0 and emits
no node, terminating that branch of the recursion. -/
theorem c4_amended_nonpositive_budget_guard (fuel : Nat) (edef : SNode) (b : Int)
    (depth : Nat) (g : Nat → Nat) (c : Nat) (hb : b ≤ 0) :
    createElement fuel edef b depth g c = .ok (none, 0, c) :=
  createElement_guard fuel edef b depth g c (Or.inl hb)

theorem c4_amended_nonpositive_budget_guard_witness :
    createElement 101 edefWide (-1) 1 rngZero 5 = .ok (none, 0, 5) :=
  c4_amended_nonpositive_budget_guard 101 edefWide (-1) 1 rngZero 5 (by norm_num)

/-- C5: with target size 0, the first walker call below the root
short-circuits on `remaining_size <= 0`, so the returned document is exactly
the root element with no descendants and no text content. -/
theorem c5_zero_size_root_only (edef : SNode) (raw : String) (g : Nat → Nat)
    (h : edef.nameAttr = some raw) :
    generate edef 0 g = .ok (Node.mk raw none []) := by
  simp only [generate, h]
  rw [createElement_guard 101 edef 0 0 g 0 (Or.inl le_rfl)]
  rfl

theorem c5_zero_size_root_only_witness :
    generate edefStringTyped 0 rngZero = .ok (Node.mk "r" none []) :=
  c5_zero_size_root_only edefStringTyped "r" rngZero rfl

/-- C6: for positive target size, when generation succeeds the pre-created
root node contains exactly one child, synthesized by the walker from the root
element definition itself, so the child's tag is the prefix-stripped root
name: the generator nests a copy of the root inside itself. -/
theorem c6_root_child_name (edef : SNode) (S : Int) (g : Nat → Nat) (doc : Node)
    (hS : 0 < S) (h : generate edef S g = .ok doc) :
    ∃ n, doc.children = [n] ∧ stripNS doc.tag = .ok n.tag := by
  unfold generate at h
  cases hn : edef.nameAttr with
  | none => rw [hn] at h; exact absurd h (by simp)
  | some rawName =>
    rw [hn] at h
    dsimp only at h
    rw [show (101 : Nat) = 100 + 1 from rfl, createElement] at h
    rw [if_neg (by omega)] at h
    rw [hn] at h
    dsimp only at h
    cases hs : stripNS rawName with
    | error e => rw [hs] at h; exact absurd h (by simp)
    | ok name =>
      rw [hs] at h
      dsimp only at h
      by_cases hp : pyTruthy edef.typeAttr
      · rw [if_pos hp] at h
        dsimp only at h
        simp only [Except.ok.injEq] at h
        subst h
        exact ⟨_, rfl, hs⟩
      · rw [if_neg hp] at h
        cases hr : randint g 0 1 (min 5 (Int.fdiv S averageElementOverhead)) with
        | error e => rw [hr] at h; exact absurd h (by simp)
        | ok v =>
          obtain ⟨cc, c1⟩ := v
          rw [hr] at h
          dsimp only at h
          cases hcl : childLoopF (fun b c2 => createElement 100 edef b (0 + 1) g c2)
              S cc cc.toNat ((name.length : Int) * 2 + 5) [] c1 with
          | error e => rw [hcl] at h; exact absurd h (by simp)
          | ok w =>
            obtain ⟨children, su, c2⟩ := w
            rw [hcl] at h
            dsimp only at h
            simp only [Except.ok.injEq] at h
            subst h
            exact ⟨_, rfl, hs⟩

theorem c6_root_child_name_witness :
    ∃ n, (Node.mk "r" none [Node.mk "r" (some "aaaaaaaaaaaaaaaaaaaa") []]).children
        = [n] ∧
      stripNS (Node.mk "r" none [Node.mk "r" (some "aaaaaaaaaaaaaaaaaaaa") []]).tag
        = .ok n.tag :=
  c6_root_child_name edefStringTyped 5 rngZero
    (Node.mk "r" none [Node.mk "r" (some "aaaaaaaaaaaaaaaaaaaa") []])
    (by norm_num) rfl

/-- C7: the claim states that a `SchemaError` is raised only when the schema
has no discoverable element definition. The code violates this:
`if not self.root_element:` tests lxml element truthiness — the number of
children — so a schema whose first named element definition is childless
(e.g. a single top-level `<xs:element name="r" type="xs:string"/>`) is
rejected with the same error even though the element was found. -/
theorem c7_init_rejects_childless_first_element :
    findRootElement docStringTyped = some edefStringTyped ∧
      xmlGeneratorInit docStringTyped = .error .schemaError :=
  ⟨rfl, rfl⟩

set_option maxRecDepth 40000 in
/-- Lengths of zero-padded years over the generated range, checked exhaustively. -/
theorem zfill_year_len : ∀ k : Nat, k ≤ 200 → (zfill 4 (1900 + (k : Int))).length = 4 := by
  decide

/-- Lengths of zero-padded months/days over the generated range, checked
exhaustively. -/
theorem zfill_two_len : ∀ k : Nat, k ≤ 27 → (zfill 2 (1 + (k : Int))).length = 2 := by
  decide

theorem zfill4_len_of (y : Int) (h1 : 1900 ≤ y) (h2 : y ≤ 2100) :
    (zfill 4 y).length = 4 := by
  have hk : y = 1900 + ((y - 1900).toNat : Int) := by omega
  rw [hk]
  exact zfill_year_len _ (by omega)

theorem zfill2_len_of (m : Int) (h1 : 1 ≤ m) (h2 : m ≤ 28) :
    (zfill 2 m).length = 2 := by
  have hk : m = 1 + ((m - 1).toNat : Int) := by omega
  rw [hk]
  exact zfill_two_len _ (by omega)

/-- C8: every value of the date generator is `YYYY-MM-DD` — a four-character
zero-padded year in [1900, 2100], a two-character zero-padded month in
[1, 12] and day in [1, 28] — for every state of the injected random source
(three draws are consumed). -/
theorem c8_date_lexical_form (g : Nat → Nat) (c : Nat) :
    ∃ y m d : Int,
      1900 ≤ y ∧ y ≤ 2100 ∧ 1 ≤ m ∧ m ≤ 12 ∧ 1 ≤ d ∧ d ≤ 28 ∧
      generateDate g c = (zfill 4 y ++ "-" ++ zfill 2 m ++ "-" ++ zfill 2 d, c + 3) ∧
      (zfill 4 y).length = 4 ∧ (zfill 2 m).length = 2 ∧ (zfill 2 d).length = 2 := by
  have hy0 : (0 : Int) ≤ (g c : Int) % 201 := Int.emod_nonneg _ (by norm_num)
  have hy1 : (g c : Int) % 201 < 201 := Int.emod_lt_of_pos _ (by norm_num)
  have hm0 : (0 : Int) ≤ (g (c + 1) : Int) % 12 := Int.emod_nonneg _ (by norm_num)
  have hm1 : (g (c + 1) : Int) % 12 < 12 := Int.emod_lt_of_pos _ (by norm_num)
  have hd0 : (0 : Int) ≤ (g (c + 2) : Int) % 28 := Int.emod_nonneg _ (by norm_num)
  have hd1 : (g (c + 2) : Int) % 28 < 28 := Int.emod_lt_of_pos _ (by norm_num)
  exact ⟨1900 + (g c : Int) % 201, 1 + (g (c + 1) : Int) % 12,
    1 + (g (c + 2) : Int) % 28,
    by omega, by omega, by omega, by omega, by omega, by omega, rfl,
    zfill4_len_of _ (by omega) (by omega),
    zfill2_len_of _ (by omega) (by omega),
    zfill2_len_of _ (by omega) (by omega)⟩

/-- Every character of the alphabet is a letter, a digit, or the space. -/
theorem charsList_ok :
    ∀ ch ∈ charsList, (ch.isAlpha || ch.isDigit || (ch == ' ')) = true := by
  decide

/-- The string generator produces exactly `len` characters. -/
theorem generateString_length (len : Nat) (g : Nat → Nat) (c : Nat) :
    (generateString len g c).1.length = len := by
  simp [generateString, String.length]

/-- Every character the string generator produces is a letter, a digit, or
the space. -/
theorem generateString_chars (len : Nat) (g : Nat → Nat) (c : Nat) :
    ∀ ch ∈ (generateString len g c).1.data,
      (ch.isAlpha || ch.isDigit || (ch == ' ')) = true := by
  intro ch hch
  simp only [generateString] at hch
  rw [List.mem_map] at hch
  obtain ⟨i, hi, rfl⟩ := hch
  exact charsList_ok _ (List.get_mem _ _ _)

/-- Dispatch on a type tag not among the seven registered ones falls back to
the string generator with its default length 20. -/
theorem typeGenerator_unknown (base : String) (g : Nat → Nat) (c : Nat)
    (hb : base ∉ (["string", "integer", "decimal", "date", "dateTime",
      "boolean", "anyURI"] : List String)) :
    typeGenerator base g c = generateString 20 g c := by
  simp only [List.mem_cons, List.mem_singleton, not_or] at hb
  obtain ⟨h1, h2, h3, h4, h5, h6, h7, -⟩ := hb
  rw [typeGenerator, if_neg h1, if_neg h2, if_neg h3, if_neg h4, if_neg h5,
    if_neg h6, if_neg h7]

/-- C9: for every element whose type tag's local name
(`type_name.split(':')[-1]`, defaulting to `string` when the attribute is
missing) is not one of the seven registered tags, leaf content generation
dispatches to the string generator instead of failing, yielding a 20-character
string over letters, digits, and space. -/
theorem c9_unknown_type_falls_back_to_string (edef : SNode) (g : Nat → Nat)
    (c : Nat)
    (hbase : String.mk ((splitColon ((edef.typeAttr).getD "string").data).getLastD [])
      ∉ (["string", "integer", "decimal", "date", "dateTime", "boolean",
          "anyURI"] : List String)) :
    generateElementContent edef g c = generateString 20 g c ∧
    (generateElementContent edef g c).1.length = 20 ∧
    ∀ ch ∈ (generateElementContent edef g c).1.data,
      (ch.isAlpha || ch.isDigit || (ch == ' ')) = true := by
  have hdisp : generateElementContent edef g c = generateString 20 g c :=
    typeGenerator_unknown _ g c hbase
  refine ⟨hdisp, ?_, ?_⟩
  · rw [hdisp]; exact generateString_length 20 g c
  · rw [hdisp]; exact generateString_chars 20 g c

theorem c9_unknown_type_falls_back_to_string_witness :
    generateElementContent edefGYear rngZero 0 = generateString 20 rngZero 0 ∧
    (generateElementContent edefGYear rngZero 0).1.length = 20 ∧
    ∀ ch ∈ (generateElementContent edefGYear rngZero 0).1.data,
      (ch.isAlpha || ch.isDigit || (ch == ' ')) = true :=
  c9_unknown_type_falls_back_to_string edefGYear rngZero 0 (by decide)

/-- C10: an element definition whose `@name` holds two or more colons makes
the walker raise (`prefix, name = name.split(':')` unpacks exactly two parts)
before any node is created, for any positive budget and admissible depth;
prefix stripping is total only for names with at most one colon. -/
theorem c10_multi_colon_name_raises (fuel : Nat) (edef : SNode) (remaining : Int)
    (depth : Nat) (g : Nat → Nat) (c : Nat) (raw : String)
    (x y z : List Char) (rest : List (List Char))
    (hname : edef.nameAttr = some raw)
    (hsplit : splitColon raw.data = x :: y :: z :: rest)
    (hr : 0 < remaining) (hd : depth ≤ 100) :
    createElement (fuel + 1) edef remaining depth g c = .error .unpackError := by
  have hstrip : stripNS raw = .error .unpackError := by
    unfold stripNS
    rw [hsplit]
  rw [createElement, if_neg (by omega), hname]
  dsimp only
  rw [hstrip]

theorem c10_multi_colon_name_raises_witness :
    createElement 101 (SNode.mk true (some "a:b:c") none []) 10 0 rngZero 0 =
      .error .unpackError :=
  c10_multi_colon_name_raises 100 (SNode.mk true (some "a:b:c") none []) 10 0
    rngZero 0 "a:b:c" ['a'] ['b'] ['c'] [] rfl rfl (by norm_num) (by norm_num)

end XmlGen
